import Mathlib

/-!
# Verification of the panko window manager core

Shallow embedding of `src/manager.rs` (the `Manager` event-dispatch loop and its
helpers).  Machine integers (`i16`, `i32`, `u16`, `u32`) are modelled as `Int`:
all arithmetic in the drag/resize geometry code operates on values derived from
`i16`/`u16` protocol fields, far from `i32` overflow, so `Int` is faithful.
Window identifiers (the opaque `x::Window` handles) are modelled as `Nat`.

The window registry `HashMap<x::Window, Window>` stores values `Window { x_window: w }`
keyed by `w` itself (the `Window` struct from the crate holds only the identifier),
so the registry carries no information beyond its key set and is modelled as a
`Finset Nat`.

Server interactions are modelled as a trace: each handler branch of
`Manager::run` returns the successor state together with the list of server
operations (requests sent, queries issued, replies awaited, flushes) it
performs, in program order.  Query replies (pointer position, window geometry,
window attributes) are inputs chosen by the environment, so they appear as data
carried by the event being handled.
-/

/-- `const BORDER_WIDTH: i32 = 2;` from manager.rs. -/
def BORDER_WIDTH : Int := 2

/-- A window geometry reply (`x::GetGeometry` reply): origin, width, height.
`x`,`y` are `i16` and `width`,`height` are `u16` in the protocol, modelled as `Int`. -/
structure Geometry where
  x : Int
  y : Int
  width : Int
  height : Int
deriving DecidableEq

/-- A pointer query reply (`x::QueryPointer` reply): root-relative pointer position. -/
structure Pointer where
  root_x : Int
  root_y : Int
deriving DecidableEq

/-- `x::MapState` of a window attributes reply. -/
inductive MapState where
  | Unmapped
  | Unviewable
  | Viewable
deriving DecidableEq

/-- The fields of an `x::GetWindowAttributes` reply consulted by
`Manager::attach_existing_windows`. -/
structure WindowAttributes where
  map_state : MapState
  override_redirect : Bool
deriving DecidableEq

/-- `enum DragButton { Left, Right }` from manager.rs. -/
inductive DragButton where
  | Left
  | Right
deriving DecidableEq

/-- `struct DragState` from manager.rs: initiating button, target window,
and the pointer/window-origin offset captured at drag start. -/
structure DragState where
  button : DragButton
  window : Nat
  off_x : Int
  off_y : Int
deriving DecidableEq

/-- The mutable state of `Manager` relevant to the dispatch loop: the window
registry, the drag session, and the immutable screen dimensions
(`screen.width_in_pixels()`, `screen.height_in_pixels()`, `u16` as `Int`). -/
structure ManagerState where
  windows : Finset Nat
  drag_state : Option DragState
  scr_width : Int
  scr_height : Int
deriving DecidableEq

/-- The requests `Manager` sends to the server (`send_request` /
`send_request_checked`), abstracted to the constructor and the arguments the
claims are about. -/
inductive Cmd where
  /-- `x::ConfigureWindow` with `X`/`Y` only (Move drag). -/
  | configureXY (w : Nat) (x y : Int)
  /-- `x::ConfigureWindow` with `Width`/`Height` only (Resize drag). -/
  | configureWH (w : Nat) (width height : Int)
  /-- `x::ConfigureWindow` with `X`,`Y`,`Width`,`Height`,`BorderWidth` (map_window). -/
  | configureFull (w : Nat) (x y width height border : Int)
  /-- `x::ConfigureWindow` with `StackMode(Above)` (bring_window_to_front). -/
  | configureStack (w : Nat)
  /-- `x::ChangeWindowAttributes` enabling `ENTER_WINDOW | FOCUS_CHANGE` delivery. -/
  | changeAttributesMask (w : Nat)
  /-- `x::ChangeWindowAttributes` setting `BorderPixel`. -/
  | changeBorderPixel (w : Nat) (pixel : Nat)
  /-- `x::MapWindow`. -/
  | mapWindow (w : Nat)
  /-- `x::GrabPointer` on the root. -/
  | grabPointer
  /-- `x::UngrabPointer`. -/
  | ungrabPointer
  /-- `x::SetInputFocus` with revert-to `PointerRoot`. -/
  | setInputFocus (w : Nat)
deriving DecidableEq

/-- The queries `Manager` issues whose replies it waits for. -/
inductive QueryKind where
  | queryTree
  | getWindowAttributes
  | getGeometry
  | queryPointer
deriving DecidableEq

/-- One interaction with the server, in program order: sending a request,
issuing a query, blocking on a query reply, or flushing the output buffer. -/
inductive ServerOp where
  | sendCmd (c : Cmd)
  | query (q : QueryKind)
  | resolve (q : QueryKind)
  | flush
deriving DecidableEq

/-- Move-drag clamp for one axis (manager.rs lines 258-283, duplicated per axis
in the source): `win_width = geometry.width + 2*BORDER_WIDTH`,
`ptr_x = pointer.root_x - off_x`, then the three-way clamp. -/
def moveClamp (scr dim off ptrRoot : Int) : Int :=
  let win_dim := dim + 2 * BORDER_WIDTH
  let ptr := ptrRoot - off
  if ptr ≤ 0 then 0
  else if ptr + win_dim > scr then scr - win_dim
  else ptr

/-- Resize-drag candidate for one dimension (manager.rs lines 305-306):
`new_width = ptr_x - win_x + 1 - BORDER_WIDTH*2`. -/
def resizeDim (ptrRoot winPos : Int) : Int :=
  ptrRoot - winPos + 1 - BORDER_WIDTH * 2

/-- The drag session recorded on a modified button press
(manager.rs lines 215-229): `match ev.detail() { 1 => Left drag, 3 => Right drag, _ => None }`. -/
def dragStateFor (detail : Nat) (window : Nat) (off_x off_y : Int) : Option DragState :=
  match detail with
  | 1 => some ⟨DragButton.Left, window, off_x, off_y⟩
  | 3 => some ⟨DragButton.Right, window, off_x, off_y⟩
  | _ => none

/-- The three requests issued by `Manager::map_window` (manager.rs lines 376-413),
in program order: configure position/size/border with the constant placement
policy (0,0,640,480, border `BORDER_WIDTH`), change attributes to request
enter/focus events, then map. -/
def mapWindowOps (w : Nat) : List ServerOp :=
  [ServerOp.sendCmd (Cmd.configureFull w 0 0 640 480 BORDER_WIDTH),
   ServerOp.sendCmd (Cmd.changeAttributesMask w),
   ServerOp.sendCmd (Cmd.mapWindow w)]

/-- The events dispatched by `Manager::run`, carrying the query replies the
handler will consume (chosen by the environment).  `buttonPressNoMod` is the
`ButtonPress` arm guarded by `ev.state().is_empty()`; `buttonPressMod` is the
unguarded `ButtonPress` arm (a modifier held), carrying `ev.child()`,
`ev.detail()`, `ev.root_x()/root_y()` and the `GetGeometry` reply.
`motionNotify` carries the `QueryPointer` and `GetGeometry` replies.
`ignored` stands for the arms that are matched and produce nothing
(`ConfigureRequest`, `ConfigureNotify`, `MapNotify`, `UnmapNotify`,
`MappingNotify`, `ClientMessage`) and the logged-only default arm. -/
inductive Event where
  | createNotify (w : Nat)
  | destroyNotify (w : Nat)
  | mapRequest (w : Nat)
  | buttonPressNoMod (child : Option Nat)
  | buttonPressMod (child : Option Nat) (detail : Nat) (root_x root_y : Int) (geom : Geometry)
  | buttonRelease
  | motionNotify (ptr : Pointer) (geom : Geometry)
  | enterNotify (w : Nat)
  | focusIn (w : Nat)
  | focusOut (w : Nat)
  | ignored
deriving DecidableEq

/-- One iteration of the `Manager::run` dispatch loop (manager.rs lines 147-374):
the handler for `ev`, returning the successor state and the trace of server
interactions it performs, in program order. -/
def handleEvent (st : ManagerState) (ev : Event) : ManagerState × List ServerOp :=
  match ev with
  | Event.createNotify w =>
      ({ st with windows := insert w st.windows }, [])
  | Event.destroyNotify w =>
      ({ st with windows := st.windows.erase w }, [])
  | Event.mapRequest w =>
      (st, mapWindowOps w ++ [ServerOp.flush])
  | Event.buttonPressNoMod child =>
      match child with
      | none => (st, [])
      | some c => (st, [ServerOp.sendCmd (Cmd.configureStack c), ServerOp.flush])
  | Event.buttonPressMod child detail root_x root_y geom =>
      match child with
      | none => (st, [])
      | some c =>
          let off_x := root_x - geom.x
          let off_y := root_y - geom.y
          ({ st with drag_state := dragStateFor detail c off_x off_y },
           [ServerOp.sendCmd (Cmd.configureStack c),
            ServerOp.sendCmd Cmd.grabPointer,
            ServerOp.query QueryKind.getGeometry,
            ServerOp.resolve QueryKind.getGeometry])
  | Event.buttonRelease =>
      ({ st with drag_state := none },
       [ServerOp.sendCmd Cmd.ungrabPointer, ServerOp.flush])
  | Event.motionNotify ptr geom =>
      match st.drag_state with
      | none => (st, [])
      | some ds =>
          let qops := [ServerOp.query QueryKind.queryPointer,
                       ServerOp.resolve QueryKind.queryPointer,
                       ServerOp.query QueryKind.getGeometry,
                       ServerOp.resolve QueryKind.getGeometry]
          match ds.button with
          | DragButton.Left =>
              let new_x := moveClamp st.scr_width geom.width ds.off_x ptr.root_x
              let new_y := moveClamp st.scr_height geom.height ds.off_y ptr.root_y
              (st, qops ++ [ServerOp.sendCmd (Cmd.configureXY ds.window new_x new_y),
                            ServerOp.flush])
          | DragButton.Right =>
              let new_width := resizeDim ptr.root_x geom.x
              let new_height := resizeDim ptr.root_y geom.y
              if 32 ≤ new_width ∧ 32 ≤ new_height then
                (st, qops ++ [ServerOp.sendCmd (Cmd.configureWH ds.window new_width new_height),
                              ServerOp.flush])
              else
                (st, qops)
  | Event.enterNotify w =>
      (st, [ServerOp.sendCmd (Cmd.setInputFocus w), ServerOp.flush])
  | Event.focusIn w =>
      (st, [ServerOp.sendCmd (Cmd.changeBorderPixel w 0x0055ff), ServerOp.flush])
  | Event.focusOut w =>
      (st, [ServerOp.sendCmd (Cmd.changeBorderPixel w 0x000000), ServerOp.flush])
  | Event.ignored =>
      (st, [])

/-- The body of the per-child closure in `Manager::attach_existing_windows`
(manager.rs lines 113-140): query the child's attributes, wait for the reply
(`none` models a failed reply, which is logged and skipped); when the reply
says the window is not unmapped and not override-redirect, insert it into the
registry and run `map_window`; otherwise do nothing further. -/
def attachChild (st : ManagerState) (w : Nat) (reply : Option WindowAttributes) :
    ManagerState × List ServerOp :=
  let qops := [ServerOp.query QueryKind.getWindowAttributes,
               ServerOp.resolve QueryKind.getWindowAttributes]
  let do_map := match reply with
    | none => false
    | some attrs => decide (attrs.map_state ≠ MapState.Unmapped) && !attrs.override_redirect
  if do_map then
    ({ st with windows := insert w st.windows }, qops ++ mapWindowOps w)
  else
    (st, qops)

/-- `Manager::attach_existing_windows` (manager.rs lines 106-145): clear the
registry, query the root's child tree, process each child with `attachChild`,
then flush.  `children` pairs each child identifier with its attribute reply. -/
def attachExistingWindows (st : ManagerState)
    (children : List (Nat × Option WindowAttributes)) : ManagerState × List ServerOp :=
  let st0 : ManagerState := { st with windows := ∅ }
  let start : ManagerState × List ServerOp :=
    (st0, [ServerOp.query QueryKind.queryTree, ServerOp.resolve QueryKind.queryTree])
  let folded := children.foldl
    (fun acc child =>
      let r := attachChild acc.1 child.1 child.2
      (r.1, acc.2 ++ r.2))
    start
  (folded.1, folded.2 ++ [ServerOp.flush])

/-- Whether a server operation sends a request (as opposed to querying,
resolving a reply, or flushing). -/
def isSendCmd : ServerOp → Bool
  | ServerOp.sendCmd _ => true
  | _ => false

/-- Whether a trace contains at least one sent request. -/
def issuesCmd (ops : List ServerOp) : Bool :=
  ops.any isSendCmd

/-- The server-side effect on a window's geometry of the Move-drag
`x::ConfigureWindow` command (X and Y only): position replaced, size kept. -/
def applyConfigureXY (g : Geometry) (x y : Int) : Geometry :=
  { g with x := x, y := y }

/-- One Move-drag step as a geometry transformer: the position the motion
handler issues for a window of geometry `g`, given the screen bounds, the drag
offset and the pointer position. -/
def moveStep (scr_w scr_h off_x off_y : Int) (ptr : Pointer) (g : Geometry) : Geometry :=
  applyConfigureXY g (moveClamp scr_w g.width off_x ptr.root_x)
    (moveClamp scr_h g.height off_y ptr.root_y)

/-! ## Helper lemmas -/

/-- The per-axis Move clamp keeps the bordered window on-screen whenever the
screen is at least as large as the bordered window. -/
lemma moveClamp_bounds (scr dim off p : Int) (h : dim + 2 * BORDER_WIDTH ≤ scr) :
    0 ≤ moveClamp scr dim off p ∧ moveClamp scr dim off p ≤ scr - (dim + 2 * BORDER_WIDTH) := by
  simp only [moveClamp, BORDER_WIDTH] at *
  split_ifs <;> omega

/-- A button detail other than 1 and 3 records no drag session. -/
lemma dragStateFor_other (detail c : Nat) (ox oy : Int) (h1 : detail ≠ 1) (h3 : detail ≠ 3) :
    dragStateFor detail c ox oy = none :=
  match detail, h1, h3 with
  | 0, _, _ => rfl
  | 1, h1, _ => absurd rfl h1
  | 2, _, _ => rfl
  | 3, _, h3 => absurd rfl h3
  | (_ + 4), _, _ => rfl

/-! ## Claims -/

/-- Claim C1: for every motion notification handled in Move mode, if the
bordered window fits the screen on each axis (`w + 2B ≤ W`, `h + 2B ≤ H`),
the handler issues exactly the trace query-pointer / query-geometry /
configure(x,y) / flush, and the issued position satisfies
`0 ≤ x ≤ W - (w + 2B)` and `0 ≤ y ≤ H - (h + 2B)`. -/
theorem move_motion_in_bounds (st : ManagerState) (ptr : Pointer) (geom : Geometry)
    (ds : DragState) (hds : st.drag_state = some ds) (hbtn : ds.button = DragButton.Left)
    (hw : geom.width + 2 * BORDER_WIDTH ≤ st.scr_width)
    (hh : geom.height + 2 * BORDER_WIDTH ≤ st.scr_height) :
    (handleEvent st (Event.motionNotify ptr geom)).2 =
      [ServerOp.query QueryKind.queryPointer, ServerOp.resolve QueryKind.queryPointer,
       ServerOp.query QueryKind.getGeometry, ServerOp.resolve QueryKind.getGeometry,
       ServerOp.sendCmd (Cmd.configureXY ds.window
         (moveClamp st.scr_width geom.width ds.off_x ptr.root_x)
         (moveClamp st.scr_height geom.height ds.off_y ptr.root_y)),
       ServerOp.flush] ∧
    0 ≤ moveClamp st.scr_width geom.width ds.off_x ptr.root_x ∧
    moveClamp st.scr_width geom.width ds.off_x ptr.root_x ≤
      st.scr_width - (geom.width + 2 * BORDER_WIDTH) ∧
    0 ≤ moveClamp st.scr_height geom.height ds.off_y ptr.root_y ∧
    moveClamp st.scr_height geom.height ds.off_y ptr.root_y ≤
      st.scr_height - (geom.height + 2 * BORDER_WIDTH) := by
  refine ⟨?_, (moveClamp_bounds _ _ _ _ hw).1, (moveClamp_bounds _ _ _ _ hw).2,
    (moveClamp_bounds _ _ _ _ hh).1, (moveClamp_bounds _ _ _ _ hh).2⟩
  simp [handleEvent, hds, hbtn]

/-- Witness for C1 at screen 1920x1080, window 640x480, offset (10,10),
pointer (1900,50). -/
theorem move_motion_in_bounds_witness :
    0 ≤ moveClamp 1920 640 10 1900 ∧
    moveClamp 1920 640 10 1900 ≤ 1920 - (640 + 2 * BORDER_WIDTH) :=
  ⟨(move_motion_in_bounds ⟨∅, some ⟨DragButton.Left, 9, 10, 10⟩, 1920, 1080⟩ ⟨1900, 50⟩
      ⟨0, 0, 640, 480⟩ ⟨DragButton.Left, 9, 10, 10⟩ rfl rfl (by decide) (by decide)).2.1,
   (move_motion_in_bounds ⟨∅, some ⟨DragButton.Left, 9, 10, 10⟩, 1920, 1080⟩ ⟨1900, 50⟩
      ⟨0, 0, 640, 480⟩ ⟨DragButton.Left, 9, 10, 10⟩ rfl rfl (by decide) (by decide)).2.2.1⟩

/-- Claim C2: for every motion notification handled in Resize mode, the
candidate size is `(ptr_x - win_x + 1 - 2B, ptr_y - win_y + 1 - 2B)`; a resize
configure command is issued exactly when both candidates are at least 32, and
otherwise the trace holds no sent command at all; in both cases the manager
state is unchanged. -/
theorem resize_motion_floor (st : ManagerState) (ptr : Pointer) (geom : Geometry)
    (ds : DragState) (hds : st.drag_state = some ds) (hbtn : ds.button = DragButton.Right) :
    (handleEvent st (Event.motionNotify ptr geom)).1 = st ∧
    ((32 ≤ resizeDim ptr.root_x geom.x ∧ 32 ≤ resizeDim ptr.root_y geom.y) →
      (handleEvent st (Event.motionNotify ptr geom)).2 =
        [ServerOp.query QueryKind.queryPointer, ServerOp.resolve QueryKind.queryPointer,
         ServerOp.query QueryKind.getGeometry, ServerOp.resolve QueryKind.getGeometry,
         ServerOp.sendCmd (Cmd.configureWH ds.window (resizeDim ptr.root_x geom.x)
           (resizeDim ptr.root_y geom.y)),
         ServerOp.flush]) ∧
    (¬ (32 ≤ resizeDim ptr.root_x geom.x ∧ 32 ≤ resizeDim ptr.root_y geom.y) →
      (handleEvent st (Event.motionNotify ptr geom)).2 =
        [ServerOp.query QueryKind.queryPointer, ServerOp.resolve QueryKind.queryPointer,
         ServerOp.query QueryKind.getGeometry, ServerOp.resolve QueryKind.getGeometry] ∧
      issuesCmd (handleEvent st (Event.motionNotify ptr geom)).2 = false) := by
  simp only [handleEvent, hds, hbtn]
  split_ifs with h <;>
    simp [h, issuesCmd, isSendCmd]

/-- Witness for C2 at the spec scenario: window origin (100,100), pointer
(105,105): candidate (2,2), command suppressed. -/
theorem resize_motion_floor_witness :
    (handleEvent ⟨∅, some ⟨DragButton.Right, 9, 5, 5⟩, 1920, 1080⟩
        (Event.motionNotify ⟨105, 105⟩ ⟨100, 100, 640, 480⟩)).2 =
      [ServerOp.query QueryKind.queryPointer, ServerOp.resolve QueryKind.queryPointer,
       ServerOp.query QueryKind.getGeometry, ServerOp.resolve QueryKind.getGeometry] ∧
    issuesCmd (handleEvent ⟨∅, some ⟨DragButton.Right, 9, 5, 5⟩, 1920, 1080⟩
        (Event.motionNotify ⟨105, 105⟩ ⟨100, 100, 640, 480⟩)).2 = false :=
  (resize_motion_floor ⟨∅, some ⟨DragButton.Right, 9, 5, 5⟩, 1920, 1080⟩ ⟨105, 105⟩
      ⟨100, 100, 640, 480⟩ ⟨DragButton.Right, 9, 5, 5⟩ rfl rfl).2.2 (by decide)

/-- Counterexample to C3 as stated: at screen 1920x1080, border 2, window
640x480, offset (10,10), pointer (1900,50), the motion handler does NOT issue
the configure command at position (1276, 10): the y candidate is
50 - 10 = 40, which is unclamped. -/
theorem move_scenario_counterexample :
    ¬ ((handleEvent ⟨∅, some ⟨DragButton.Left, 9, 10, 10⟩, 1920, 1080⟩
          (Event.motionNotify ⟨1900, 50⟩ ⟨0, 0, 640, 480⟩)).2 =
        [ServerOp.query QueryKind.queryPointer, ServerOp.resolve QueryKind.queryPointer,
         ServerOp.query QueryKind.getGeometry, ServerOp.resolve QueryKind.getGeometry,
         ServerOp.sendCmd (Cmd.configureXY 9 1276 10), ServerOp.flush]) := by
  decide

/-- Claim C3 (amended): for that input the clamped target is (1276, 40):
x is clamped to 1920 - 644 = 1276 and y = 50 - 10 = 40 is used unclamped. -/
theorem move_scenario_target :
    (handleEvent ⟨∅, some ⟨DragButton.Left, 9, 10, 10⟩, 1920, 1080⟩
        (Event.motionNotify ⟨1900, 50⟩ ⟨0, 0, 640, 480⟩)).2 =
      [ServerOp.query QueryKind.queryPointer, ServerOp.resolve QueryKind.queryPointer,
       ServerOp.query QueryKind.getGeometry, ServerOp.resolve QueryKind.getGeometry,
       ServerOp.sendCmd (Cmd.configureXY 9 1276 40), ServerOp.flush] := by
  decide

/-- Counterexample to C4 as stated: a child whose attribute reply has
override-redirect set (here viewable, override-redirect true) is NOT inserted
into the registry by the enumeration closure. -/
theorem attach_override_redirect_counterexample :
    7 ∉ (attachChild ⟨∅, none, 1920, 1080⟩ 7
        (some ⟨MapState.Viewable, true⟩)).1.windows := by
  decide

/-- Claim C4 (amended): during startup enumeration, a child whose attribute
reply has the override-redirect flag set is neither inserted into the registry
nor has any map/configure command issued for it; beyond the attribute query and
its reply, the child is skipped entirely. -/
theorem attach_override_redirect_skipped (st : ManagerState) (w : Nat)
    (attrs : WindowAttributes) (h : attrs.override_redirect = true) :
    attachChild st w (some attrs) =
      (st, [ServerOp.query QueryKind.getWindowAttributes,
            ServerOp.resolve QueryKind.getWindowAttributes]) := by
  simp [attachChild, h]

/-- Witness for the amended C4 at a concrete viewable override-redirect child. -/
theorem attach_override_redirect_skipped_witness :
    attachChild ⟨∅, none, 1920, 1080⟩ 7 (some ⟨MapState.Viewable, true⟩) =
      (⟨∅, none, 1920, 1080⟩, [ServerOp.query QueryKind.getWindowAttributes,
        ServerOp.resolve QueryKind.getWindowAttributes]) :=
  attach_override_redirect_skipped ⟨∅, none, 1920, 1080⟩ 7 ⟨MapState.Viewable, true⟩ rfl

/-- Claim C5: every button-release handler invocation, for any prior state,
issues exactly one ungrab-pointer command (its trace is ungrab then flush, so
the ungrab is the only sent command) and sets the drag session to `none`,
leaving the rest of the state untouched. -/
theorem button_release_clears (st : ManagerState) :
    handleEvent st Event.buttonRelease =
      ({ st with drag_state := none },
       [ServerOp.sendCmd Cmd.ungrabPointer, ServerOp.flush]) ∧
    ((handleEvent st Event.buttonRelease).2.filter isSendCmd) =
      [ServerOp.sendCmd Cmd.ungrabPointer] :=
  ⟨rfl, rfl⟩

/-- Claim C6: a window-destruction notification removes the window from the
registry, issues no command, and leaves the drag session exactly as it was
(including when the destroyed window is the drag target); a repeated
destruction notice for the same identifier leaves the registry unchanged. -/
theorem destroy_notify_removes (st : ManagerState) (w : Nat) :
    (handleEvent st (Event.destroyNotify w)).1.windows = st.windows.erase w ∧
    (handleEvent st (Event.destroyNotify w)).1.drag_state = st.drag_state ∧
    (handleEvent st (Event.destroyNotify w)).2 = [] ∧
    (handleEvent (handleEvent st (Event.destroyNotify w)).1 (Event.destroyNotify w)).1.windows =
      (handleEvent st (Event.destroyNotify w)).1.windows := by
  refine ⟨rfl, rfl, rfl, ?_⟩
  simp [handleEvent, Finset.erase_idem]

/-- Counterexample to C7 as stated: the modifier button-press branch over a
window (here button 1 over window 5) sends commands (raise, pointer grab) but
its last server interaction is the blocking wait for the geometry reply, not a
flush. -/
theorem flush_before_block_counterexample :
    issuesCmd (handleEvent ⟨∅, none, 1920, 1080⟩
        (Event.buttonPressMod (some 5) 1 0 0 ⟨0, 0, 640, 480⟩)).2 = true ∧
    (handleEvent ⟨∅, none, 1920, 1080⟩
        (Event.buttonPressMod (some 5) 1 0 0 ⟨0, 0, 640, 480⟩)).2.getLast? ≠
      some ServerOp.flush := by
  decide

/-- Claim C7 (amended): in every dispatch-loop iteration, every handler branch
that sends at least one command ends its trace with a flush, except the
modifier button-press branch, whose last server interaction is the blocking
resolution of its geometry query. -/
theorem flush_before_block (st : ManagerState) (ev : Event)
    (h : issuesCmd (handleEvent st ev).2 = true) :
    (handleEvent st ev).2.getLast? = some ServerOp.flush ∨
    ((handleEvent st ev).2.getLast? = some (ServerOp.resolve QueryKind.getGeometry) ∧
     ∃ c detail rx ry g, ev = Event.buttonPressMod (some c) detail rx ry g) := by
  cases ev with
  | createNotify w => simp [handleEvent, issuesCmd] at h
  | destroyNotify w => simp [handleEvent, issuesCmd] at h
  | ignored => simp [handleEvent, issuesCmd] at h
  | mapRequest w => exact Or.inl rfl
  | buttonPressNoMod child =>
      cases child with
      | none => simp [handleEvent, issuesCmd] at h
      | some c => exact Or.inl rfl
  | buttonPressMod child detail rx ry g =>
      cases child with
      | none => simp [handleEvent, issuesCmd] at h
      | some c => exact Or.inr ⟨rfl, c, detail, rx, ry, g, rfl⟩
  | buttonRelease => exact Or.inl rfl
  | motionNotify ptr geom =>
      cases hd : st.drag_state with
      | none => simp [handleEvent, hd, issuesCmd] at h
      | some ds =>
          cases hb : ds.button with
          | Left =>
              refine Or.inl ?_
              simp [handleEvent, hd, hb]
          | Right =>
              by_cases hsz : 32 ≤ resizeDim ptr.root_x geom.x ∧ 32 ≤ resizeDim ptr.root_y geom.y
              · refine Or.inl ?_
                simp [handleEvent, hd, hb, hsz]
              · simp [handleEvent, hd, hb, hsz, issuesCmd, isSendCmd] at h
  | enterNotify w => exact Or.inl rfl
  | focusIn w => exact Or.inl rfl
  | focusOut w => exact Or.inl rfl

/-- Witness for the amended C7 at a button-release event. -/
theorem flush_before_block_witness :
    (handleEvent ⟨∅, none, 1920, 1080⟩ Event.buttonRelease).2.getLast? =
        some ServerOp.flush ∨
    ((handleEvent ⟨∅, none, 1920, 1080⟩ Event.buttonRelease).2.getLast? =
        some (ServerOp.resolve QueryKind.getGeometry) ∧
     ∃ c detail rx ry g,
       Event.buttonRelease = Event.buttonPressMod (some c) detail rx ry g) :=
  flush_before_block ⟨∅, none, 1920, 1080⟩ Event.buttonRelease (by decide)

/-- Claim C8: Move is idempotent under a stationary pointer: with the same
pointer, screen size and window width/height, a second motion notification
(whose live geometry is the result of applying the first motion's configure
command) produces the same trace as the first, and the move geometry
transformer is idempotent. -/
theorem move_idempotent_stationary (st : ManagerState) (ptr : Pointer) (g : Geometry)
    (ds : DragState) (hds : st.drag_state = some ds) (hbtn : ds.button = DragButton.Left) :
    (handleEvent st (Event.motionNotify ptr
        (moveStep st.scr_width st.scr_height ds.off_x ds.off_y ptr g))).2 =
      (handleEvent st (Event.motionNotify ptr g)).2 ∧
    moveStep st.scr_width st.scr_height ds.off_x ds.off_y ptr
        (moveStep st.scr_width st.scr_height ds.off_x ds.off_y ptr g) =
      moveStep st.scr_width st.scr_height ds.off_x ds.off_y ptr g := by
  constructor
  · simp [handleEvent, hds, hbtn, moveStep, applyConfigureXY]
  · simp [moveStep, applyConfigureXY]

/-- Witness for C8 at screen 1920x1080, offset (10,10), pointer (1900,50),
window 640x480 at the origin. -/
theorem move_idempotent_stationary_witness :
    moveStep 1920 1080 10 10 ⟨1900, 50⟩ (moveStep 1920 1080 10 10 ⟨1900, 50⟩ ⟨0, 0, 640, 480⟩) =
      moveStep 1920 1080 10 10 ⟨1900, 50⟩ ⟨0, 0, 640, 480⟩ :=
  (move_idempotent_stationary ⟨∅, some ⟨DragButton.Left, 9, 10, 10⟩, 1920, 1080⟩
    ⟨1900, 50⟩ ⟨0, 0, 640, 480⟩ ⟨DragButton.Left, 9, 10, 10⟩ rfl rfl).2

/-- Counterexample to C9 as stated: the map-request handler does not issue the
map command first; its first sent request configures position/size/border. -/
theorem map_request_order_counterexample :
    ¬ ((handleEvent ⟨∅, none, 1920, 1080⟩ (Event.mapRequest 5)).2 =
        [ServerOp.sendCmd (Cmd.mapWindow 5),
         ServerOp.sendCmd (Cmd.configureFull 5 0 0 640 480 BORDER_WIDTH),
         ServerOp.sendCmd (Cmd.changeAttributesMask 5),
         ServerOp.flush]) := by
  decide

/-- Claim C9 (amended): for every map-request event, the handler applies the
constant placement policy (origin (0,0), size 640x480, border width 2) and
issues, in order: the configure command setting position, size and border
width, the attribute-change command enabling enter-window and focus-change
event delivery, and the map command, followed by a flush; the state is
unchanged. -/
theorem map_request_ops (st : ManagerState) (w : Nat) :
    handleEvent st (Event.mapRequest w) =
      (st, [ServerOp.sendCmd (Cmd.configureFull w 0 0 640 480 BORDER_WIDTH),
            ServerOp.sendCmd (Cmd.changeAttributesMask w),
            ServerOp.sendCmd (Cmd.mapWindow w),
            ServerOp.flush]) :=
  rfl

/-- Claim C10: a modified button press over a window with a button detail other
than 1 or 3 still raises the window and issues the pointer grab (and the
geometry query), but records no drag session — overwriting any previously live
session with `none`; no ungrab appears in its trace. -/
theorem mod_press_other_button (st : ManagerState) (c detail : Nat) (rx ry : Int)
    (g : Geometry) (h1 : detail ≠ 1) (h3 : detail ≠ 3) :
    handleEvent st (Event.buttonPressMod (some c) detail rx ry g) =
      ({ st with drag_state := none },
       [ServerOp.sendCmd (Cmd.configureStack c), ServerOp.sendCmd Cmd.grabPointer,
        ServerOp.query QueryKind.getGeometry, ServerOp.resolve QueryKind.getGeometry]) := by
  simp [handleEvent, dragStateFor_other detail c (rx - g.x) (ry - g.y) h1 h3]

/-- Witness for C10: button detail 2 over window 5 while a Move drag on window
1 is live clears the session. -/
theorem mod_press_other_button_witness :
    handleEvent ⟨∅, some ⟨DragButton.Left, 1, 0, 0⟩, 1920, 1080⟩
        (Event.buttonPressMod (some 5) 2 0 0 ⟨0, 0, 640, 480⟩) =
      (⟨∅, none, 1920, 1080⟩,
       [ServerOp.sendCmd (Cmd.configureStack 5), ServerOp.sendCmd Cmd.grabPointer,
        ServerOp.query QueryKind.getGeometry, ServerOp.resolve QueryKind.getGeometry]) :=
  mod_press_other_button ⟨∅, some ⟨DragButton.Left, 1, 0, 0⟩, 1920, 1080⟩ 5 2 0 0
    ⟨0, 0, 640, 480⟩ (by decide) (by decide)
